import Mathlib

/-!
# TCP_with_UDP.cc: a shallow embedding and its checked properties

The program is an ns-3 scenario script: two trace callbacks that print queue
occupancy changes, a `main` that wires four nodes, four point-to-point links,
two packet sinks and two on-off sources, and a final loop that prints the
per-flow counters of the flow monitor.

Conventions of the embedding
* `uint16_t`, `uint32_t`, `uint64_t` values are natural numbers; the program
  only prints and compares them, no arithmetic on them can wrap.
* `ns3::Time` is a signed count of nanoseconds (the default resolution).
* A C++ `double` is a value of `Dbl`: an exact rational, a signed infinity or
  NaN.  Rounding to 53 bits and the sign of zero are not represented; the
  special results of a division by zero are.
* The times `main` hands to `Seconds(...)` are exact rational numbers of
  seconds.
* Output streams are values that grow by appending.
-/

namespace TrafficControlExample

/-! ## Output streams and the trace callbacks (source lines 81-97) -/

/-- The two character streams the program writes to.  The trace callbacks
write to `std::cout`; the other stream stands for everything else. -/
structure Console where
  cout : String
  clog : String
deriving DecidableEq, Repr

/-- One `std::cout << text` step: the characters are appended to the stream. -/
def Console.put (w : Console) (text : String) : Console :=
  { w with cout := w.cout ++ text }

/-- The step `std::cout << std::endl`: a newline is appended (the flush has
no effect on the contents). -/
def Console.endl (w : Console) : Console :=
  w.put "\n"

/-- Source lines 81-85.  The `uint32_t` arguments are inserted with the default
stream flags, that is in decimal. -/
def TcPacketsInQueueTrace (oldValue newValue : Nat) (w : Console) : Console :=
  ((((w.put "TcPacketsInQueue ").put (toString oldValue)).put " to ").put
    (toString newValue)).endl

/-- Source lines 93-97. -/
def DevicePacketsInQueueTrace (oldValue newValue : Nat) (w : Console) : Console :=
  ((((w.put "DevicePacketsInQueue ").put (toString oldValue)).put " to ").put
    (toString newValue)).endl

/-! ## Doubles, times and flow statistics (source lines 322-334) -/

/-- A C++ `double`, up to rounding: finite values are exact rationals. -/
inductive Dbl where
  | finite (q : ℚ)
  | inf (negative : Bool)
  | nan
deriving DecidableEq

/-- Whether a double is neither an infinity nor NaN (`std::isfinite`). -/
def Dbl.isFinite : Dbl → Bool
  | .finite _ => true
  | _ => false

/-- Product of two doubles, with the IEEE-754 special cases. -/
def Dbl.mul : Dbl → Dbl → Dbl
  | .finite a, .finite b => .finite (a * b)
  | .finite a, .inf s => if a = 0 then .nan else .inf (xor s (decide (a < 0)))
  | .inf s, .finite b => if b = 0 then .nan else .inf (xor s (decide (b < 0)))
  | .inf s, .inf t => .inf (xor s t)
  | .nan, _ => .nan
  | _, .nan => .nan

/-- Difference of two doubles, with the IEEE-754 special cases. -/
def Dbl.sub : Dbl → Dbl → Dbl
  | .finite a, .finite b => .finite (a - b)
  | .finite _, .inf s => .inf (!s)
  | .inf s, .finite _ => .inf s
  | .inf s, .inf t => if s = t then .nan else .inf s
  | .nan, _ => .nan
  | _, .nan => .nan

/-- Quotient of two doubles.  A non-zero finite value divided by zero is an
infinity, zero divided by zero is NaN; no error is raised. -/
def Dbl.div : Dbl → Dbl → Dbl
  | .finite a, .finite b =>
      if b = 0 then (if a = 0 then .nan else .inf (decide (a < 0))) else .finite (a / b)
  | .finite _, .inf _ => .finite 0
  | .inf s, .finite b => .inf (xor s (decide (b < 0)))
  | .inf _, .inf _ => .nan
  | .nan, _ => .nan
  | _, .nan => .nan

/-- Conversion of an unsigned integer to `double`. -/
def Dbl.ofNat (n : Nat) : Dbl :=
  .finite (n : ℚ)

/-- An `ns3::Time`: a signed number of nanoseconds. -/
structure Time where
  ns : Int
deriving DecidableEq, Repr

/-- The call `Time::GetSeconds`: the time as a `double` number of seconds. -/
def Time.GetSeconds (t : Time) : Dbl :=
  .finite ((t.ns : ℚ) / 1000000000)

/-- A whole number of seconds as a `Time`. -/
def Time.ofSeconds (s : Int) : Time :=
  ⟨s * 1000000000⟩

/-- An IPv4 address, held as ns-3 holds it: one 32-bit number. -/
structure Ipv4Address where
  addr : Nat
deriving DecidableEq, Repr

/-- The address with the four given octets, most significant first. -/
def Ipv4Address.ofOctets (a b c d : Nat) : Ipv4Address :=
  ⟨((a * 256 + b) * 256 + c) * 256 + d⟩

/-- Dotted-quad text of an address, as `operator<<` prints it. -/
def Ipv4Address.print (a : Ipv4Address) : String :=
  toString (a.addr / 16777216 % 256) ++ "." ++ toString (a.addr / 65536 % 256) ++ "." ++
    toString (a.addr / 256 % 256) ++ "." ++ toString (a.addr % 256)

/-- Key type of the flow-statistics map (`uint32_t`). -/
abbrev FlowId := Nat

/-- The fields of `FlowMonitor::FlowStats` that exist as scalars. -/
structure FlowStats where
  timeFirstTxPacket : Time
  timeFirstRxPacket : Time
  timeLastTxPacket : Time
  timeLastRxPacket : Time
  txBytes : Nat
  rxBytes : Nat
  txPackets : Nat
  rxPackets : Nat
  lostPackets : Nat
deriving DecidableEq, Repr

/-- The part of `Ipv4FlowClassifier::FiveTuple` the report reads, with the
rest of the tuple. -/
structure FiveTuple where
  sourceAddress : Ipv4Address
  destinationAddress : Ipv4Address
  protocol : Nat
  sourcePort : Nat
  destinationPort : Nat
deriving DecidableEq, Repr

/-- A `std::map<FlowId, FlowStats>`: its entries in iteration order, which for
a `std::map` is the strictly increasing order of the keys. -/
structure FlowStatsMap where
  entries : List (FlowId × FlowStats)
  ordered : (entries.map Prod.fst).Pairwise (· < ·)

/-- The value inserted in the `Throughput:` line (source line 333):
`rxBytes * 8.0 / (timeLastRxPacket.GetSeconds() - timeFirstTxPacket.GetSeconds()) / 1024`. -/
def throughput (s : FlowStats) : Dbl :=
  Dbl.div
    (Dbl.div (Dbl.mul (Dbl.ofNat s.rxBytes) (.finite 8))
      (Dbl.sub s.timeLastRxPacket.GetSeconds s.timeFirstTxPacket.GetSeconds))
    (.finite 1024)

/-- One use of the logging statement `NS_LOG_UNCOND(msg)`: the message becomes
one more line of the log. -/
def NS_LOG_UNCOND (log : List String) (msg : String) : List String :=
  log ++ [msg]

/-- Body of the report loop (source lines 328-333) for the entry `iter`.
`FindFlow` is the classifier lookup and `showDouble` the text `operator<<`
gives a `double`. -/
def reportFlow (FindFlow : FlowId → FiveTuple) (showDouble : Dbl → String)
    (log : List String) (iter : FlowId × FlowStats) : List String :=
  let t := FindFlow iter.1
  let log := NS_LOG_UNCOND log
    ("Flow ID: " ++ toString iter.1 ++ " Src Addr " ++ t.sourceAddress.print ++
      " Dst Addr " ++ t.destinationAddress.print)
  let log := NS_LOG_UNCOND log ("Tx Packets = " ++ toString iter.2.txPackets)
  let log := NS_LOG_UNCOND log ("Rx Packets = " ++ toString iter.2.rxPackets)
  let log := NS_LOG_UNCOND log ("lostPackets Packets = " ++ toString iter.2.lostPackets)
  NS_LOG_UNCOND log ("Throughput: " ++ showDouble (throughput iter.2) ++ " Kbps")

/-- The report loop (source lines 326-334): from `stats.begin()` to
`stats.end()`, one body execution per entry. -/
def reportLoop (FindFlow : FlowId → FiveTuple) (showDouble : Dbl → String)
    (stats : FlowStatsMap) (log : List String) : List String :=
  stats.entries.foldl (reportFlow FindFlow showDouble) log

/-- A flow that has received exactly one packet of 1448 bytes, one second
after its first packet was sent. -/
def oneRxFlow : FlowStats :=
  { timeFirstTxPacket := Time.ofSeconds 1, timeFirstRxPacket := Time.ofSeconds 2,
    timeLastTxPacket := Time.ofSeconds 1, timeLastRxPacket := Time.ofSeconds 2,
    txBytes := 1448, rxBytes := 1448, txPackets := 1, rxPackets := 1, lostPackets := 0 }

/-- A flow whose last reception carries the time stamp of its first
transmission. -/
def sameTimeFlow : FlowStats :=
  { oneRxFlow with timeFirstRxPacket := Time.ofSeconds 1, timeLastRxPacket := Time.ofSeconds 1 }

/-- A flow that sent one packet at second 1 and never received anything; the
reception times keep their initial value zero. -/
def zeroRxFlow : FlowStats :=
  { timeFirstTxPacket := Time.ofSeconds 1, timeFirstRxPacket := Time.ofSeconds 0,
    timeLastTxPacket := Time.ofSeconds 1, timeLastRxPacket := Time.ofSeconds 0,
    txBytes := 1448, rxBytes := 0, txPackets := 1, rxPackets := 0, lostPackets := 1 }

/-! ## The scenario built by `main` (source lines 110-309)

Every statement of `main` that is live code contributes to the value below;
the statements inside the comment blocks at lines 120-129, 150-165, 242-297,
312-317 and 339-348 are not executed and contribute nothing. -/

/-- The two socket factories named in the source. -/
inductive SocketFactory where
  | TcpSocketFactory
  | UdpSocketFactory
deriving DecidableEq, Repr

/-- A point-to-point device: the node it sits on, the channel it is attached
to, and the attributes given by the helper (data rate in bit/s, transmit
queue capacity in packets, channel delay in milliseconds). -/
structure NetDevice where
  node : Nat
  channel : Nat
  dataRate : Nat
  queueMaxSize : Nat
  delayMs : Nat
deriving DecidableEq, Repr

/-- State of the `PointToPointHelper` after lines 134-136: `"10Mbps"`, `"2ms"`
and a `DropTailQueue` with `MaxSize` `"1p"`. -/
structure PointToPointHelper where
  dataRate : Nat
  delayMs : Nat
  queueMaxSize : Nat
deriving DecidableEq, Repr

/-- The call `PointToPointHelper::Install(a, b)`: a new channel with one device on
each node; the returned container holds the device of `a` at index 0 and the
device of `b` at index 1. -/
def PointToPointHelper.Install (h : PointToPointHelper) (channel a b : Nat) : List NetDevice :=
  [ { node := a, channel := channel, dataRate := h.dataRate,
      queueMaxSize := h.queueMaxSize, delayMs := h.delayMs },
    { node := b, channel := channel, dataRate := h.dataRate,
      queueMaxSize := h.queueMaxSize, delayMs := h.delayMs } ]

/-- An entry of an `Ipv4InterfaceContainer`: a device and its address. -/
structure Ipv4Interface where
  device : NetDevice
  address : Ipv4Address
deriving DecidableEq, Repr

/-- The call `Ipv4AddressHelper::Assign` after `SetBase(network, "255.255.255.0")`:
the devices of the container receive the host numbers 1, 2, ... of the
network, in container order. -/
def Ipv4AddressHelperAssign (network : Ipv4Address) (devices : List NetDevice) :
    List Ipv4Interface :=
  devices.enum.map fun p => { device := p.2, address := ⟨network.addr + p.1 + 1⟩ }

/-- The call `Ipv4InterfaceContainer::GetAddress(i)`. -/
def GetAddress (c : List Ipv4Interface) (i : Nat) : Ipv4Address :=
  (c.map Ipv4Interface.address).getD i ⟨0⟩

/-- The address `Ipv4Address::GetAny()`, 0.0.0.0. -/
def Ipv4Address.GetAny : Ipv4Address :=
  ⟨0⟩

/-- An installed `PacketSink` application with its start and stop times in
seconds. -/
structure PacketSinkApp where
  factory : SocketFactory
  localAddress : Ipv4Address
  port : Nat
  node : Nat
  start : ℚ
  stop : ℚ
deriving DecidableEq

/-- An installed `OnOffApplication` with its attributes (on and off times are
the constants of the `ConstantRandomVariable`s, the data rate is in bit/s) and
its start and stop times in seconds. -/
structure OnOffApp where
  factory : SocketFactory
  onTime : ℚ
  offTime : ℚ
  packetSize : Nat
  dataRate : Nat
  remoteAddress : Ipv4Address
  remotePort : Nat
  tos : Nat
  node : Nat
  start : ℚ
  stop : ℚ
deriving DecidableEq

/-- A root queue disc installed on a device through `TrafficControlHelper`. -/
structure RootQueueDisc where
  device : NetDevice
  typeId : String
  maxSizePackets : Nat
deriving DecidableEq, Repr

/-- The trace callbacks defined by the program. -/
inductive TraceCallback where
  | TcPacketsInQueueTrace
  | DevicePacketsInQueueTrace
  | SojournTimeTrace
deriving DecidableEq, Repr

/-- A trace source connected to one of the callbacks. -/
structure TraceConnection where
  source : String
  callback : TraceCallback
deriving DecidableEq, Repr

/-- Everything `main` has set up when `Simulator::Run` is called. -/
structure Setup where
  nodes : Nat
  devices : List NetDevice
  interfaces : List Ipv4Interface
  rootQueueDiscs : List RootQueueDisc
  traceConnections : List TraceConnection
  segmentSize : Nat
  sinks : List PacketSinkApp
  sources : List OnOffApp
  flowMonitorInstalled : Bool
  simulatorStop : ℚ

/-- The node that owns an address: the node of the device the address was
assigned to. -/
def Setup.ownerOf (s : Setup) (a : Ipv4Address) : Option Nat :=
  (s.interfaces.find? fun i => i.address = a).map fun i => i.device.node

/-- A value of the local variable `simulationTime` (line 113) for which every
time `main` derives from it, up to `simulationTime + 5`, is an `ns3::Time`: a
signed 64-bit count of nanoseconds holds 9223372036 whole seconds at most.
In this range a `double` carries `simulationTime + 0.1` and
`simulationTime + 5` with an error of a few microseconds at most; that
rounding is not represented, the values are exact rationals. -/
structure SimulationTime where
  seconds : ℚ
  inRange : -9223372036 ≤ seconds ∧ seconds + 5 ≤ 9223372036

/-- Whether an application with the given start and stop times is running at
time `t`.  An ns-3 application is started by an event at its start time and
stopped by an event at its stop time; a stop event that fires before the
application has started stops nothing. -/
def runningAt (start stop t : ℚ) : Prop :=
  start ≤ t ∧ ¬ (start ≤ stop ∧ stop ≤ t)

instance (start stop t : ℚ) : Decidable (runningAt start stop t) := by
  unfold runningAt
  infer_instance

/-- The set-up part of `main`, as a function of the local variable
`simulationTime` (line 113). -/
def mainSetup (simulationTime : SimulationTime) : Setup :=
  -- lines 130-136
  let nodes := 4
  let pointToPoint : PointToPointHelper :=
    { dataRate := 10000000, delayMs := 2, queueMaxSize := 1 }
  -- lines 138-146
  let devices01t := pointToPoint.Install 0 0 1
  let devices12t := pointToPoint.Install 1 1 2
  let devices31u := pointToPoint.Install 2 3 1
  let devices12u := pointToPoint.Install 3 1 2
  -- lines 166-174
  let interfaces01t := Ipv4AddressHelperAssign (Ipv4Address.ofOctets 10 1 1 0) devices01t
  let interfaces12t := Ipv4AddressHelperAssign (Ipv4Address.ofOctets 10 1 2 0) devices12t
  let interfaces31u := Ipv4AddressHelperAssign (Ipv4Address.ofOctets 10 1 3 0) devices31u
  let interfaces12u := Ipv4AddressHelperAssign (Ipv4Address.ofOctets 10 1 4 0) devices12u
  -- lines 179-185
  let port := 7
  let sinkApp : PacketSinkApp :=
    { factory := .TcpSocketFactory, localAddress := Ipv4Address.GetAny, port := port,
      node := 2, start := 0, stop := simulationTime.seconds + 1 / 10 }
  -- lines 188-194
  let port1 := 9
  let sinkApp1 : PacketSinkApp :=
    { factory := .UdpSocketFactory, localAddress := Ipv4Address.GetAny, port := port1,
      node := 2, start := 0, stop := simulationTime.seconds + 1 / 10 }
  -- lines 199-200
  let payloadSize := 1448
  -- lines 205-209 and 223-229
  let apps : OnOffApp :=
    { factory := .TcpSocketFactory, onTime := 1, offTime := 0, packetSize := payloadSize,
      dataRate := 50000000, remoteAddress := GetAddress interfaces12t 1, remotePort := port,
      tos := 0xb8, node := 0, start := 1, stop := simulationTime.seconds + 1 / 10 }
  -- lines 212-216 and 231-237
  let apps1 : OnOffApp :=
    { factory := .UdpSocketFactory, onTime := 1, offTime := 0, packetSize := payloadSize,
      dataRate := 50000000, remoteAddress := GetAddress interfaces12u 1, remotePort := port1,
      tos := 0xb8, node := 3, start := 1, stop := simulationTime.seconds + 1 / 10 }
  -- lines 305-309
  { nodes := nodes,
    devices := devices01t ++ devices12t ++ devices31u ++ devices12u,
    interfaces := interfaces01t ++ interfaces12t ++ interfaces31u ++ interfaces12u,
    rootQueueDiscs := [],
    traceConnections := [],
    segmentSize := payloadSize,
    sinks := [sinkApp, sinkApp1],
    sources := [apps, apps1],
    flowMonitorInstalled := true,
    simulatorStop := simulationTime.seconds + 5 }

/-- The set-up of the program as written: `simulationTime` is 10 and no
command-line value can change it (the `AddValue` call is commented out). -/
def main : Setup :=
  mainSetup ⟨10, by norm_num⟩

/-- The value one half of `simulationTime`. -/
def halfSecond : SimulationTime :=
  ⟨1 / 2, by norm_num⟩

/-! ## The flow monitor of the specification (sections 3 and 4.4)

`main` only calls the flow monitor (`InstallAll`, `CheckForLostPackets`,
`GetFlowStats`); the monitor itself is not part of the source file.  The
definitions of this section follow the wording of the specification and end
in the `FlowStats` values the report loop prints. -/

/-- Modelled from the spec: the drop reasons of section 7; the monitor that
records them is not in the source. -/
inductive DropReason where
  | QueueOverflow
  | ForcedDrop
  | EarlyRandomDrop
  | DeviceQueueOverflow
deriving DecidableEq, Repr

/-- Modelled from the spec: the `PacketDescriptor` of section 3 (unique id, byte
size, five-tuple, creation timestamp); packets are not part of the source.
The tag sequence is left out, the monitor does not read it. -/
structure PacketDescriptor where
  id : Nat
  size : Nat
  tuple : FiveTuple
  creationTimestamp : Time
deriving DecidableEq

/-- Modelled from the spec: the `FlowRecord` of section 3; the record type of
the monitor is not in the source.  `lostPackets` is the counter "explicitly
counted at drop time"; for every drop reason the record holds the pair (count,
bytes).  `timeFirstRxPacket` is the field of the source's `FlowStats` that the
list of section 3 leaves out; it is kept the way `timeFirstTxPacket` is. -/
structure FlowRecord where
  txPackets : Nat
  txBytes : Nat
  rxPackets : Nat
  rxBytes : Nat
  lostPackets : Nat
  timeFirstTxPacket : Option Time
  timeFirstRxPacket : Option Time
  timeLastTxPacket : Time
  timeLastRxPacket : Time
  delaySum : Time
  jitterSum : Time
  lastDelay : Option Time
  dropsByReason : DropReason → Nat × Nat

/-- Modelled from the spec: the state of the `FlowMonitor` of section 4.4; the
monitor is not in the source.  It holds one record per flow seen so far and
the packets in flight, the ones that were transmitted and have been neither
received, dropped nor declared lost (section 3 derives `lostPackets` from
them). -/
structure FlowMonitor where
  records : FlowId → Option FlowRecord
  tracked : List PacketDescriptor

/-- Modelled from the spec: a monitor that has observed nothing; the monitor
is not in the source. -/
def FlowMonitor.init : FlowMonitor :=
  ⟨fun _ => none, []⟩

/-- Modelled from the spec: storing the updated record of a flow; the monitor
is not in the source. -/
def FlowMonitor.store (m : FlowMonitor) (f : FlowId) (r : FlowRecord) : FlowMonitor :=
  { m with records := fun g => if g = f then some r else m.records g }

/-- A packet of 1448 bytes from 10.1.3.1 port 49153 to 10.1.4.2 port 9 over UDP
(protocol 17), created at second 1. -/
def udpPacket : PacketDescriptor :=
  { id := 1, size := 1448,
    tuple := { sourceAddress := Ipv4Address.ofOctets 10 1 3 1,
               destinationAddress := Ipv4Address.ofOctets 10 1 4 2,
               protocol := 17, sourcePort := 49153, destinationPort := 9 },
    creationTimestamp := Time.ofSeconds 1 }

/-- Modelled from the spec: the configuration of the RED queue of section 3
(thresholds, maximum drop probability, EWMA weight, capacity in packets); the
queue discipline is not in the source. -/
structure RedConfig where
  minTh : ℚ
  maxTh : ℚ
  maxP : ℚ
  weight : ℚ
  capacity : Int
deriving DecidableEq

/-- Modelled from the spec: the `ConfigurationError` cases of section 7; the
queue discipline is not in the source. -/
inductive ConfigurationError where
  | thresholdsOutOfOrder
  | negativeCapacity
  | maxPOutsideUnitInterval
deriving DecidableEq, Repr

/-- Modelled from the spec: construction of a RED queue (section 7),
"ConfigurationError (e.g., minTh > maxTh, negative capacity, maxP outside
[0,1]) detected at construction time and fatal"; the queue discipline is not in
the source. -/
def RedConfig.build (c : RedConfig) : Except ConfigurationError RedConfig :=
  if c.minTh > c.maxTh then .error .thresholdsOutOfOrder
  else if c.capacity < 0 then .error .negativeCapacity
  else if c.maxP < 0 ∨ 1 < c.maxP then .error .maxPOutsideUnitInterval
  else .ok c

/-- Modelled from the spec: the RED queue state of section 3; the queue
discipline is not in the source.  The queue holds the resident packets with
their enqueue timestamps, oldest first; `currentQueueLength` is its length. -/
structure RedState where
  queue : List (PacketDescriptor × ℚ)
  averageQueueLength : ℚ
  idleStartTime : Option ℚ
  count : Nat

/-- Modelled from the spec: `currentQueueLength` in packets; the queue
discipline is not in the source. -/
def RedState.currentQueueLength (st : RedState) : Nat :=
  st.queue.length

/-- Modelled from the spec: the outcome of `Enqueue` (section 4.1),
`Admitted | Dropped(reason)`; the queue discipline is not in the source. -/
inductive EnqueueResult where
  | Admitted
  | Dropped (reason : DropReason)
deriving DecidableEq, Repr

/-- Modelled from the spec: step 1 of `Enqueue` (section 4.1); the queue
discipline is not in the source.  After an idle period the average is decayed
by the factor `idleDecay` gives for the idle duration, otherwise
`avg = avg + weight * (currentQueueLength - avg)`. -/
def updateAverage (cfg : RedConfig) (idleDecay : ℚ → ℚ) (st : RedState) (now : ℚ) : ℚ :=
  match st.idleStartTime with
  | some t0 => st.averageQueueLength * idleDecay (now - t0)
  | none =>
      st.averageQueueLength + cfg.weight * ((st.currentQueueLength : ℚ) - st.averageQueueLength)

/-- Modelled from the spec: the linear drop probability of step 5,
`pb = maxP * (averageQueueLength - minTh) / (maxTh - minTh)`; the queue
discipline is not in the source. -/
def pb (cfg : RedConfig) (averageQueueLength : ℚ) : ℚ :=
  cfg.maxP * (averageQueueLength - cfg.minTh) / (cfg.maxTh - cfg.minTh)

/-- Modelled from the spec: the count-based correction of step 5,
`pa = pb / (1 - count * pb)`, with "negative or non-finite computed
probabilities ... clamped to [0,1]"; the queue discipline is not in the
source.  A zero denominator gives the upper end of the interval. -/
def pa (cfg : RedConfig) (averageQueueLength : ℚ) (count : Nat) : ℚ :=
  let b := pb cfg averageQueueLength
  if 1 - (count : ℚ) * b = 0 then 1
  else max 0 (min 1 (b / (1 - (count : ℚ) * b)))

/-- Modelled from the spec: `Enqueue` of section 4.1, steps 1 to 5 and the
bookkeeping "on admit"; the queue discipline is not in the source.  `u` is the
uniform random value drawn in step 5. -/
def RedEnqueue (cfg : RedConfig) (idleDecay : ℚ → ℚ) (st : RedState) (now u : ℚ)
    (p : PacketDescriptor) : EnqueueResult × RedState :=
  let avg := updateAverage cfg idleDecay st now
  let enqueued (count : Nat) : RedState :=
    { queue := st.queue ++ [(p, now)], averageQueueLength := avg,
      idleStartTime := none, count := count }
  let refused (count : Nat) : RedState :=
    { st with averageQueueLength := avg, count := count }
  if cfg.capacity ≤ (st.currentQueueLength : Int) then
    (.Dropped .QueueOverflow, refused st.count)
  else if avg < cfg.minTh then
    (.Admitted, enqueued 0)
  else if cfg.maxTh ≤ avg then
    (.Dropped .ForcedDrop, refused 0)
  else if u < pa cfg avg st.count then
    (.Dropped .EarlyRandomDrop, refused 0)
  else
    (.Admitted, enqueued (st.count + 1))

/-- A RED queue that has seen no packet yet. -/
def RedState.init : RedState :=
  { queue := [], averageQueueLength := 0, idleStartTime := none, count := 0 }

/-- The thresholds of the scenario of section 8 (capacity 10000 packets,
minTh 500, maxTh 1500, maxP 0.02) with the weight 0.002. -/
def scenarioRed : RedConfig :=
  { minTh := 500, maxTh := 1500, maxP := 1 / 50, weight := 1 / 500, capacity := 10000 }

/-- The same thresholds on a queue of capacity zero. -/
def zeroCapacityRed : RedConfig :=
  { scenarioRed with capacity := 0 }

/-- The same thresholds on a queue of capacity one. -/
def unitCapacityRed : RedConfig :=
  { scenarioRed with capacity := 1 }

/-- A RED queue holding one packet, with a small average. -/
def oneQueued : RedState :=
  { queue := [(udpPacket, 1)], averageQueueLength := 0, idleStartTime := none, count := 0 }

/-- A RED queue whose average has passed the upper threshold. -/
def congested : RedState :=
  { queue := [(udpPacket, 1)], averageQueueLength := 2000, idleStartTime := none, count := 3 }

/-- No decay during idle periods. -/
def noDecay : ℚ → ℚ :=
  fun _ => 1

/-! ## Properties of the trace callbacks -/

theorem digitChar_ne_newline (m : Nat) (h : m < 10) : Nat.digitChar m ≠ '\n' := by
  interval_cases m <;> decide

theorem toDigitsCore_no_newline (fuel : Nat) : ∀ (n : Nat) (ds : List Char),
    '\n' ∉ ds → '\n' ∉ Nat.toDigitsCore 10 fuel n ds := by
  induction fuel with
  | zero => intro n ds h; simpa [Nat.toDigitsCore] using h
  | succ f ih =>
    intro n ds h
    have hd : '\n' ∉ Nat.digitChar (n % 10) :: ds := by
      simp only [List.mem_cons, not_or]
      exact ⟨(digitChar_ne_newline _ (Nat.mod_lt _ (by decide))).symm, h⟩
    simp only [Nat.toDigitsCore]
    split
    · exact hd
    · exact ih _ _ hd

theorem toString_nat_no_newline (n : Nat) : '\n' ∉ (toString n).data := by
  have h : (toString n).data = Nat.toDigits 10 n := by
    simp [toString, Nat.repr, List.asString]
  rw [h]
  exact toDigitsCore_no_newline _ _ _ (by simp)

/-- C7: for all unsigned 32-bit values, `TcPacketsInQueueTrace` appends to
`std::cout` exactly the text "TcPacketsInQueue old to new" followed by one
newline, `DevicePacketsInQueueTrace` appends exactly "DevicePacketsInQueue old
to new" followed by one newline, the text before the newline contains no
newline (it is one line), and the other stream is left as it was. -/
theorem trace_callbacks_write_one_line (oldValue newValue : Nat)
    (_hOld : oldValue < 2 ^ 32) (_hNew : newValue < 2 ^ 32) (w : Console) :
    (TcPacketsInQueueTrace oldValue newValue w).cout =
        w.cout ++ ("TcPacketsInQueue " ++ toString oldValue ++ " to " ++ toString newValue)
          ++ "\n" ∧
      '\n' ∉ ("TcPacketsInQueue " ++ toString oldValue ++ " to " ++ toString newValue).data ∧
      (TcPacketsInQueueTrace oldValue newValue w).clog = w.clog ∧
      (DevicePacketsInQueueTrace oldValue newValue w).cout =
        w.cout ++ ("DevicePacketsInQueue " ++ toString oldValue ++ " to " ++ toString newValue)
          ++ "\n" ∧
      '\n' ∉ ("DevicePacketsInQueue " ++ toString oldValue ++ " to " ++ toString newValue).data ∧
      (DevicePacketsInQueueTrace oldValue newValue w).clog = w.clog := by
  have ho := toString_nat_no_newline oldValue
  have hn := toString_nat_no_newline newValue
  refine ⟨?_, ?_, rfl, ?_, ?_, rfl⟩
  · simp [TcPacketsInQueueTrace, Console.endl, Console.put, String.append_assoc]
  · simp only [String.data_append, List.mem_append, not_or]
    exact ⟨⟨⟨by decide, ho⟩, by decide⟩, hn⟩
  · simp [DevicePacketsInQueueTrace, Console.endl, Console.put, String.append_assoc]
  · simp only [String.data_append, List.mem_append, not_or]
    exact ⟨⟨⟨by decide, ho⟩, by decide⟩, hn⟩

/-- C7 at the values of the header comment: the change 7 to 8 of the queue
disc and the change 0 to 1 of the device queue, on empty streams. -/
theorem trace_callbacks_write_one_line_witness :
    (7 < 2 ^ 32 ∧ 8 < 2 ^ 32) ∧
      (TcPacketsInQueueTrace 7 8 ⟨"", ""⟩).cout = "TcPacketsInQueue 7 to 8\n" ∧
      (DevicePacketsInQueueTrace 7 8 ⟨"", ""⟩).cout = "DevicePacketsInQueue 7 to 8\n" := by
  have h := trace_callbacks_write_one_line 7 8 (by decide) (by decide) ⟨"", ""⟩
  refine ⟨⟨by decide, by decide⟩, ?_, ?_⟩
  · rw [h.1]; decide
  · rw [h.2.2.2.1]; decide

/-! ## Properties of the per-flow report -/

theorem seconds_sub_eq_zero_iff (a b : Time) :
    (a.ns : ℚ) / 1000000000 - (b.ns : ℚ) / 1000000000 = 0 ↔ a = b := by
  constructor
  · intro h
    have h1 : (a.ns : ℚ) = (b.ns : ℚ) := by
      field_simp at h
      linarith
    have h2 : a.ns = b.ns := by exact_mod_cast h1
    cases a; cases b; simp_all
  · rintro rfl; simp

theorem throughput_eq (s : FlowStats) :
    throughput s =
      if s.timeLastRxPacket = s.timeFirstTxPacket then
        (if s.rxBytes = 0 then Dbl.nan else Dbl.inf false)
      else
        Dbl.finite ((s.rxBytes : ℚ) * 8 /
          ((s.timeLastRxPacket.ns : ℚ) / 1000000000 -
            (s.timeFirstTxPacket.ns : ℚ) / 1000000000) / 1024) := by
  by_cases h : s.timeLastRxPacket = s.timeFirstTxPacket
  · have h0 := (seconds_sub_eq_zero_iff s.timeLastRxPacket s.timeFirstTxPacket).2 h
    by_cases hb : s.rxBytes = 0
    · simp [throughput, Dbl.div, Dbl.mul, Dbl.sub, Dbl.ofNat, Time.GetSeconds, h, hb]
    · have hneg : ¬ ((s.rxBytes : ℚ) * 8 < 0) := not_lt.mpr (by positivity)
      have hk : ¬ ((1024 : ℚ) < 0) := by norm_num
      simp [throughput, Dbl.div, Dbl.mul, Dbl.sub, Dbl.ofNat, Time.GetSeconds, h, hb, hneg, hk]
  · have h0 := mt (seconds_sub_eq_zero_iff s.timeLastRxPacket s.timeFirstTxPacket).1 h
    simp [throughput, Dbl.div, Dbl.mul, Dbl.sub, Dbl.ofNat, Time.GetSeconds, h, h0]

/-- C1 (as the code has it): the report loop has no guard.  The throughput
value is zero exactly when no byte was received and timeLastRxPacket differs
from timeFirstTxPacket, whatever the number of received packets; it is a
finite number exactly when the two times differ; and when they are equal the
division by zero yields NaN if no byte was received and positive infinity
otherwise. -/
theorem throughput_zero_iff (s : FlowStats) :
    (throughput s = Dbl.finite 0 ↔
        s.rxBytes = 0 ∧ s.timeLastRxPacket ≠ s.timeFirstTxPacket) ∧
      ((throughput s).isFinite = true ↔ s.timeLastRxPacket ≠ s.timeFirstTxPacket) ∧
      (throughput s = Dbl.nan ↔ s.rxBytes = 0 ∧ s.timeLastRxPacket = s.timeFirstTxPacket) ∧
      (throughput s = Dbl.inf false ↔
        s.rxBytes ≠ 0 ∧ s.timeLastRxPacket = s.timeFirstTxPacket) := by
  rw [throughput_eq]
  by_cases h : s.timeLastRxPacket = s.timeFirstTxPacket
  · by_cases hb : s.rxBytes = 0 <;> simp [h, hb, Dbl.isFinite]
  · have h0 := mt (seconds_sub_eq_zero_iff s.timeLastRxPacket s.timeFirstTxPacket).1 h
    have hb : ((s.rxBytes : ℚ) = 0) ↔ s.rxBytes = 0 := by exact_mod_cast Iff.rfl
    simp [h, Dbl.isFinite, h0, hb]

/-- C1 at a flow that sent one packet and received nothing: no byte was
received and the two times differ, so the reported throughput is zero. -/
theorem throughput_zero_iff_witness :
    zeroRxFlow.rxPackets = 0 ∧ throughput zeroRxFlow = Dbl.finite 0 :=
  ⟨rfl, (throughput_zero_iff zeroRxFlow).1.2 ⟨rfl, by decide⟩⟩

/-- C1 fails as stated: a flow with exactly one received packet (fewer than
two) reports the non-zero throughput 181/16, and a flow whose
timeLastRxPacket equals its timeFirstTxPacket reports positive infinity, the
result of a division by zero. -/
theorem throughput_one_packet_nonzero :
    oneRxFlow.rxPackets < 2 ∧ throughput oneRxFlow = Dbl.finite (181 / 16) ∧
      throughput oneRxFlow ≠ Dbl.finite 0 ∧
      sameTimeFlow.timeLastRxPacket = sameTimeFlow.timeFirstTxPacket ∧
      throughput sameTimeFlow = Dbl.inf false ∧ throughput sameTimeFlow ≠ Dbl.finite 0 := by
  have h1 : throughput oneRxFlow = Dbl.finite (181 / 16) := by
    simp [throughput, oneRxFlow, Dbl.div, Dbl.mul, Dbl.sub, Dbl.ofNat, Time.GetSeconds,
      Time.ofSeconds]
    norm_num
  have h2 : throughput sameTimeFlow = Dbl.inf false := by
    simp [throughput, sameTimeFlow, oneRxFlow, Dbl.div, Dbl.mul, Dbl.sub, Dbl.ofNat,
      Time.GetSeconds, Time.ofSeconds]
    norm_num
  refine ⟨by decide, h1, ?_, rfl, h2, ?_⟩
  · rw [h1]; simp
  · rw [h2]; simp

/-- C2 (as the code has it): for a flow whose timeLastRxPacket differs from
timeFirstTxPacket, the value in the Throughput line is
rxBytes * 8 / (timeLastRxPacket - timeFirstTxPacket, in seconds) / 1024; the
last line logged for the flow is "Throughput: " followed by that value and
" Kbps"; and the value does not depend on timeFirstRxPacket. -/
theorem throughput_line_value (FindFlow : FlowId → FiveTuple) (showDouble : Dbl → String)
    (log : List String) (id : FlowId) (s : FlowStats)
    (h : s.timeLastRxPacket ≠ s.timeFirstTxPacket) :
    throughput s =
        Dbl.finite ((s.rxBytes : ℚ) * 8 /
          ((s.timeLastRxPacket.ns : ℚ) / 1000000000 -
            (s.timeFirstTxPacket.ns : ℚ) / 1000000000) / 1024) ∧
      (reportFlow FindFlow showDouble log (id, s)).getLast? =
        some ("Throughput: " ++
          showDouble (Dbl.finite ((s.rxBytes : ℚ) * 8 /
            ((s.timeLastRxPacket.ns : ℚ) / 1000000000 -
              (s.timeFirstTxPacket.ns : ℚ) / 1000000000) / 1024)) ++ " Kbps") ∧
      ∀ t : Time, throughput { s with timeFirstRxPacket := t } = throughput s := by
  have hv := throughput_eq s
  rw [if_neg h] at hv
  refine ⟨hv, ?_, fun t => rfl⟩
  simp [reportFlow, NS_LOG_UNCOND, hv]

/-- C2 at a flow that received 1448 bytes between second 1 and second 2: the
value is 1448 * 8 / 1 / 1024 = 181/16. -/
theorem throughput_line_value_witness :
    oneRxFlow.timeLastRxPacket ≠ oneRxFlow.timeFirstTxPacket ∧
      throughput oneRxFlow = Dbl.finite (181 / 16) := by
  have h : oneRxFlow.timeLastRxPacket ≠ oneRxFlow.timeFirstTxPacket := by decide
  refine ⟨h, ?_⟩
  rw [(throughput_line_value (fun _ => ⟨⟨0⟩, ⟨0⟩, 0, 0, 0⟩) (fun _ => "") [] 1 oneRxFlow h).1]
  simp [oneRxFlow, Time.ofSeconds]
  norm_num

/-- C2 fails as stated: for the flow that received 1448 bytes between second
1 and second 2, rxBytes * 8 / (timeLastRxPacket - timeFirstTxPacket) is 11584,
while the value the report prints is 181/16 (11584 divided by 1024). -/
theorem throughput_is_not_bits_per_second :
    oneRxFlow.timeLastRxPacket ≠ oneRxFlow.timeFirstTxPacket ∧
      Dbl.div (Dbl.mul (Dbl.ofNat oneRxFlow.rxBytes) (Dbl.finite 8))
          (Dbl.sub oneRxFlow.timeLastRxPacket.GetSeconds oneRxFlow.timeFirstTxPacket.GetSeconds)
        = Dbl.finite 11584 ∧
      throughput oneRxFlow = Dbl.finite (181 / 16) ∧
      throughput oneRxFlow ≠ Dbl.finite 11584 := by
  have h1 : throughput oneRxFlow = Dbl.finite (181 / 16) := by
    simp [throughput, oneRxFlow, Dbl.div, Dbl.mul, Dbl.sub, Dbl.ofNat, Time.GetSeconds,
      Time.ofSeconds]
    norm_num
  refine ⟨by decide, ?_, h1, ?_⟩
  · simp [oneRxFlow, Dbl.div, Dbl.mul, Dbl.sub, Dbl.ofNat, Time.GetSeconds, Time.ofSeconds]
    norm_num
  · rw [h1]; simp; norm_num

theorem reportFlow_eq (FindFlow : FlowId → FiveTuple) (showDouble : Dbl → String)
    (log : List String) (iter : FlowId × FlowStats) :
    reportFlow FindFlow showDouble log iter =
      log ++
        [ "Flow ID: " ++ toString iter.1 ++ " Src Addr " ++
            (FindFlow iter.1).sourceAddress.print ++
            " Dst Addr " ++ (FindFlow iter.1).destinationAddress.print,
          "Tx Packets = " ++ toString iter.2.txPackets,
          "Rx Packets = " ++ toString iter.2.rxPackets,
          "lostPackets Packets = " ++ toString iter.2.lostPackets,
          "Throughput: " ++ showDouble (throughput iter.2) ++ " Kbps" ] := by
  simp [reportFlow, NS_LOG_UNCOND]

theorem foldl_reportFlow (FindFlow : FlowId → FiveTuple) (showDouble : Dbl → String)
    (l : List (FlowId × FlowStats)) : ∀ log : List String,
    l.foldl (reportFlow FindFlow showDouble) log =
      log ++ l.flatMap fun iter =>
        [ "Flow ID: " ++ toString iter.1 ++ " Src Addr " ++
            (FindFlow iter.1).sourceAddress.print ++
            " Dst Addr " ++ (FindFlow iter.1).destinationAddress.print,
          "Tx Packets = " ++ toString iter.2.txPackets,
          "Rx Packets = " ++ toString iter.2.rxPackets,
          "lostPackets Packets = " ++ toString iter.2.lostPackets,
          "Throughput: " ++ showDouble (throughput iter.2) ++ " Kbps" ] := by
  induction l with
  | nil => intro log; simp
  | cons a l ih =>
    intro log
    rw [List.foldl_cons, ih, reportFlow_eq]
    simp

theorem length_flatMap_five {α β : Type} (l : List α) (f : α → List β)
    (h : ∀ a, (f a).length = 5) : (l.flatMap f).length = 5 * l.length := by
  induction l with
  | nil => simp
  | cons a l ih => simp [List.flatMap_cons, ih, h]; omega

/-- C9: the report loop started on an empty log yields, for the entries of
the flow-statistics map taken in their (strictly increasing, duplicate-free)
key order, the five lines flow id with source and destination address, Tx
packets, Rx packets, lost packets, throughput, one entry after the other; the
log therefore has 5 * n lines for n flows, and none for the empty map. -/
theorem report_visits_each_flow_once (FindFlow : FlowId → FiveTuple)
    (showDouble : Dbl → String) (stats : FlowStatsMap) :
    reportLoop FindFlow showDouble stats [] =
        (stats.entries.flatMap fun iter =>
          [ "Flow ID: " ++ toString iter.1 ++ " Src Addr " ++
              (FindFlow iter.1).sourceAddress.print ++
              " Dst Addr " ++ (FindFlow iter.1).destinationAddress.print,
            "Tx Packets = " ++ toString iter.2.txPackets,
            "Rx Packets = " ++ toString iter.2.rxPackets,
            "lostPackets Packets = " ++ toString iter.2.lostPackets,
            "Throughput: " ++ showDouble (throughput iter.2) ++ " Kbps" ]) ∧
      (stats.entries.map Prod.fst).Pairwise (· < ·) ∧
      (stats.entries.map Prod.fst).Nodup ∧
      (reportLoop FindFlow showDouble stats []).length = 5 * stats.entries.length ∧
      reportLoop FindFlow showDouble ⟨[], List.Pairwise.nil⟩ [] = [] := by
  have h := foldl_reportFlow FindFlow showDouble stats.entries []
  rw [List.nil_append] at h
  refine ⟨h, stats.ordered, ?_, ?_, rfl⟩
  · exact stats.ordered.imp (fun hab => Nat.ne_of_lt hab)
  · unfold reportLoop
    rw [h]
    exact length_flatMap_five _ _ (fun _ => rfl)

/-! ## Properties of the specified flow monitor -/

theorem tracked_store (m : FlowMonitor) (f : FlowId) (r : FlowRecord) :
    (m.store f r).tracked = m.tracked := rfl

/-- C4 (as the specified algorithm has it): for maxP >= 0 and minTh < maxTh
the linear drop probability pb is non-decreasing in the average queue length.
An enqueue that finds the queue at or above its capacity is dropped with
reason QueueOverflow whatever the average, and the queue is left as it was.
Below capacity, an enqueue whose updated average is below minTh is admitted,
the packet is appended to the queue and count is reset; and, when minTh <=
maxTh, an enqueue whose updated average is at or above maxTh is dropped with
reason ForcedDrop, the queue is left as it was and count is reset.  Hence,
when minTh <= maxTh, every enqueue at an average at or above maxTh is
dropped.  Below capacity and between the thresholds the packet is dropped with
reason EarlyRandomDrop exactly when the random draw is below pa, and is
admitted with count increased by one otherwise. -/
theorem red_admission (cfg : RedConfig) :
    (0 ≤ cfg.maxP → cfg.minTh < cfg.maxTh → ∀ a b : ℚ, a ≤ b → pb cfg a ≤ pb cfg b) ∧
      (∀ (idleDecay : ℚ → ℚ) (st : RedState) (now u : ℚ) (p : PacketDescriptor),
        cfg.capacity ≤ (st.currentQueueLength : Int) →
        RedEnqueue cfg idleDecay st now u p =
          (EnqueueResult.Dropped DropReason.QueueOverflow,
            { st with averageQueueLength := updateAverage cfg idleDecay st now })) ∧
      (∀ (idleDecay : ℚ → ℚ) (st : RedState) (now u : ℚ) (p : PacketDescriptor),
        (st.currentQueueLength : Int) < cfg.capacity →
        updateAverage cfg idleDecay st now < cfg.minTh →
        RedEnqueue cfg idleDecay st now u p =
          (EnqueueResult.Admitted,
            { queue := st.queue ++ [(p, now)],
              averageQueueLength := updateAverage cfg idleDecay st now,
              idleStartTime := none, count := 0 })) ∧
      (∀ (idleDecay : ℚ → ℚ) (st : RedState) (now u : ℚ) (p : PacketDescriptor),
        cfg.minTh ≤ cfg.maxTh →
        (st.currentQueueLength : Int) < cfg.capacity →
        cfg.maxTh ≤ updateAverage cfg idleDecay st now →
        RedEnqueue cfg idleDecay st now u p =
          (EnqueueResult.Dropped DropReason.ForcedDrop,
            { st with averageQueueLength := updateAverage cfg idleDecay st now, count := 0 })) ∧
      (∀ (idleDecay : ℚ → ℚ) (st : RedState) (now u : ℚ) (p : PacketDescriptor),
        cfg.minTh ≤ cfg.maxTh →
        cfg.maxTh ≤ updateAverage cfg idleDecay st now →
        ∃ reason, (RedEnqueue cfg idleDecay st now u p).1 = EnqueueResult.Dropped reason) ∧
      (∀ (idleDecay : ℚ → ℚ) (st : RedState) (now u : ℚ) (p : PacketDescriptor),
        (st.currentQueueLength : Int) < cfg.capacity →
        cfg.minTh ≤ updateAverage cfg idleDecay st now →
        updateAverage cfg idleDecay st now < cfg.maxTh →
        RedEnqueue cfg idleDecay st now u p =
          if u < pa cfg (updateAverage cfg idleDecay st now) st.count then
            (EnqueueResult.Dropped DropReason.EarlyRandomDrop,
              { st with averageQueueLength := updateAverage cfg idleDecay st now, count := 0 })
          else
            (EnqueueResult.Admitted,
              { queue := st.queue ++ [(p, now)],
                averageQueueLength := updateAverage cfg idleDecay st now,
                idleStartTime := none, count := st.count + 1 })) := by
  refine ⟨?_, ?_, ?_, ?_, ?_, ?_⟩
  · intro hP hTh a b hab
    unfold pb
    have hd : 0 < cfg.maxTh - cfg.minTh := by linarith
    apply div_le_div_of_nonneg_right _ hd.le
    apply mul_le_mul_of_nonneg_left _ hP
    linarith
  · intro idleDecay st now u p hcap
    simp [RedEnqueue, hcap]
  · intro idleDecay st now u p hcap havg
    have hc : ¬ cfg.capacity ≤ (st.currentQueueLength : Int) := not_le.mpr hcap
    simp [RedEnqueue, hc, havg]
  · intro idleDecay st now u p hTh hcap havg
    have hc : ¬ cfg.capacity ≤ (st.currentQueueLength : Int) := not_le.mpr hcap
    have hmin : ¬ updateAverage cfg idleDecay st now < cfg.minTh := by
      apply not_lt.mpr
      linarith
    simp [RedEnqueue, hc, hmin, havg]
  · intro idleDecay st now u p hTh havg
    have hmin : ¬ updateAverage cfg idleDecay st now < cfg.minTh := by
      apply not_lt.mpr
      linarith
    by_cases hc : cfg.capacity ≤ (st.currentQueueLength : Int)
    · exact ⟨.QueueOverflow, by simp [RedEnqueue, hc]⟩
    · exact ⟨.ForcedDrop, by simp [RedEnqueue, hc, hmin, havg]⟩
  · intro idleDecay st now u p hcap hlo hhi
    have hc : ¬ cfg.capacity ≤ (st.currentQueueLength : Int) := not_le.mpr hcap
    have hmin : ¬ updateAverage cfg idleDecay st now < cfg.minTh := not_lt.mpr hlo
    have hmax : ¬ cfg.maxTh ≤ updateAverage cfg idleDecay st now := not_le.mpr hhi
    simp [RedEnqueue, hc, hmin, hmax]

theorem scenarioRed_maxP : 0 ≤ scenarioRed.maxP := by
  simp [scenarioRed]

theorem scenarioRed_thresholds : scenarioRed.minTh < scenarioRed.maxTh := by
  simp [scenarioRed]; norm_num

/-- C4 on the thresholds of the scenario (minTh 500, maxTh 1500, maxP 0.02,
capacity 10000): pb grows from average 600 to average 700, the first packet
offered to an empty queue is admitted and queued, and a packet offered at
average 2000 is dropped with reason ForcedDrop. -/
theorem red_admission_witness :
    (0 ≤ scenarioRed.maxP ∧ scenarioRed.minTh < scenarioRed.maxTh) ∧
      pb scenarioRed 600 ≤ pb scenarioRed 700 ∧
      (RedEnqueue scenarioRed noDecay RedState.init 1 0 udpPacket).1 = EnqueueResult.Admitted ∧
      (RedEnqueue scenarioRed noDecay RedState.init 1 0 udpPacket).2.queue = [(udpPacket, 1)] ∧
      (RedEnqueue scenarioRed noDecay congested 2 0 udpPacket).1 =
        EnqueueResult.Dropped DropReason.ForcedDrop := by
  have h := red_admission scenarioRed
  have hadm := h.2.2.1 noDecay RedState.init 1 0 udpPacket
    (by simp [RedState.init, scenarioRed, RedState.currentQueueLength])
    (by simp [updateAverage, RedState.init, scenarioRed, RedState.currentQueueLength])
  have hdrop := h.2.2.2.1 noDecay congested 2 0 udpPacket scenarioRed_thresholds.le
    (by simp [congested, scenarioRed, RedState.currentQueueLength])
    (by simp [updateAverage, congested, scenarioRed, RedState.currentQueueLength]; norm_num)
  refine ⟨⟨scenarioRed_maxP, scenarioRed_thresholds⟩,
    h.1 scenarioRed_maxP scenarioRed_thresholds 600 700 (by norm_num), ?_, ?_, ?_⟩
  · rw [hadm]
  · rw [hadm]; rfl
  · rw [hdrop]

/-- C4 fails as stated: with capacity zero the first packet, offered at
average 0 < minTh, is dropped with reason QueueOverflow; and with capacity one
a packet offered to a queue that holds one packet, at average 1/500 < minTh,
is dropped with reason QueueOverflow.  Both configurations pass the
construction check. -/
theorem red_full_queue_drops_below_minTh :
    zeroCapacityRed.build = .ok zeroCapacityRed ∧
      updateAverage zeroCapacityRed noDecay RedState.init 1 < zeroCapacityRed.minTh ∧
      (RedEnqueue zeroCapacityRed noDecay RedState.init 1 0 udpPacket).1 =
        EnqueueResult.Dropped .QueueOverflow ∧
      unitCapacityRed.build = .ok unitCapacityRed ∧
      updateAverage unitCapacityRed noDecay oneQueued 2 < unitCapacityRed.minTh ∧
      (RedEnqueue unitCapacityRed noDecay oneQueued 2 0 udpPacket).1 =
        EnqueueResult.Dropped .QueueOverflow := by
  refine ⟨?_, ?_, ?_, ?_, ?_, ?_⟩
  · simp [RedConfig.build, zeroCapacityRed, scenarioRed]; norm_num
  · simp [updateAverage, RedState.init, zeroCapacityRed, scenarioRed,
      RedState.currentQueueLength]
  · simp [RedEnqueue, RedState.init, zeroCapacityRed, scenarioRed, RedState.currentQueueLength]
  · simp [RedConfig.build, unitCapacityRed, scenarioRed]; norm_num
  · simp [updateAverage, oneQueued, unitCapacityRed, scenarioRed, RedState.currentQueueLength]
    norm_num
  · simp [RedEnqueue, oneQueued, unitCapacityRed, scenarioRed, RedState.currentQueueLength]

/-! ## Properties of the scenario built by `main` -/

/-- C5 (what the code does): `main` installs no root queue disc through
`TrafficControlHelper` and connects none of the trace callbacks; the only
statements that would do so are inside the comment block at lines 150-165. -/
theorem main_installs_no_queue_disc :
    main.rootQueueDiscs = [] ∧ main.traceConnections = [] :=
  ⟨rfl, rfl⟩

/-- C6 (as the code has it): every on-off source offers 50 Mbps, is always on
(on-time 1, off-time 0) with packets of 1448 bytes, and runs from second 1 to
second 10.1, that is for 9.1 seconds; every one of the eight point-to-point
devices has a 10 Mbps data rate and a transmit queue of one packet. -/
theorem configured_scenario :
    main.sources.length = 2 ∧ main.devices.length = 8 ∧
      (∀ src ∈ main.sources,
        src.dataRate = 50000000 ∧ src.onTime = 1 ∧ src.offTime = 0 ∧ src.packetSize = 1448 ∧
          src.start = 1 ∧ src.stop = 101 / 10 ∧ src.stop - src.start = 91 / 10) ∧
      (∀ dev ∈ main.devices, dev.dataRate = 10000000 ∧ dev.queueMaxSize = 1) := by
  refine ⟨rfl, rfl, ?_, ?_⟩
  · simp [main, mainSetup]
    norm_num
  · simp [main, mainSetup, PointToPointHelper.Install]

/-- C6 fails as stated: both sources are active for 9.1 seconds, not 10. -/
theorem sources_not_active_ten_seconds :
    main.sources.map (fun src => src.stop - src.start) = [91 / 10, 91 / 10] ∧
      ¬ (∀ src ∈ main.sources, src.stop - src.start = 10) := by
  constructor
  · simp [main, mainSetup]
    norm_num
  · simp [main, mainSetup]
    norm_num

/-- C8: the sources are a TCP source on node 0 towards 10.1.2.2 port 7 and a
UDP source on node 3 towards 10.1.4.2 port 9; the sinks are a TCP sink on port
7 and a UDP sink on port 9, both on node 2; both remote addresses belong to
node 2; and every source has a sink of its protocol and port on the node that
owns its remote address. -/
theorem every_source_has_matching_sink :
    main.sources.map (fun s => (s.factory, s.node, s.remoteAddress.print, s.remotePort)) =
        [(SocketFactory.TcpSocketFactory, 0, "10.1.2.2", 7),
          (SocketFactory.UdpSocketFactory, 3, "10.1.4.2", 9)] ∧
      main.sinks.map (fun k => (k.factory, k.node, k.localAddress, k.port)) =
        [(SocketFactory.TcpSocketFactory, 2, Ipv4Address.GetAny, 7),
          (SocketFactory.UdpSocketFactory, 2, Ipv4Address.GetAny, 9)] ∧
      main.ownerOf (Ipv4Address.ofOctets 10 1 2 2) = some 2 ∧
      main.ownerOf (Ipv4Address.ofOctets 10 1 4 2) = some 2 ∧
      (main.interfaces.map Ipv4Interface.address).Nodup ∧
      (∀ src ∈ main.sources, ∃ snk ∈ main.sinks,
        snk.factory = src.factory ∧ snk.port = src.remotePort ∧
          main.ownerOf src.remoteAddress = some snk.node) := by
  refine ⟨by decide, by decide, by decide, by decide, by decide, ?_⟩
  simp [main, mainSetup]
  decide

theorem runningAt_iff (start stop t : ℚ) :
    runningAt start stop t ↔ start ≤ t ∧ ¬ (start ≤ stop ∧ stop ≤ t) :=
  Iff.rfl

/-- C10 (as the code has it): for every simulationTime from 0.9 seconds up to
the largest value for which simulationTime + 5 is a Time, both sinks start at
0 and both sources at 1, so every sink starts strictly before every source;
sinks and sources all stop at simulationTime + 0.1, no earlier than they
start; the simulator stops at simulationTime + 5, strictly after every
application stop time; and no application is running at the simulator stop
time. -/
theorem schedule_is_ordered (simulationTime : SimulationTime)
    (h : 9 / 10 ≤ simulationTime.seconds) :
    (mainSetup simulationTime).sinks.length = 2 ∧
      (mainSetup simulationTime).sources.length = 2 ∧
      (∀ snk ∈ (mainSetup simulationTime).sinks,
        snk.start = 0 ∧ snk.stop = simulationTime.seconds + 1 / 10) ∧
      (∀ src ∈ (mainSetup simulationTime).sources,
        src.start = 1 ∧ src.stop = simulationTime.seconds + 1 / 10) ∧
      (∀ snk ∈ (mainSetup simulationTime).sinks, ∀ src ∈ (mainSetup simulationTime).sources,
        snk.start < src.start) ∧
      (mainSetup simulationTime).simulatorStop = simulationTime.seconds + 5 ∧
      (∀ snk ∈ (mainSetup simulationTime).sinks,
        snk.start ≤ snk.stop ∧ snk.stop < (mainSetup simulationTime).simulatorStop ∧
          ¬ runningAt snk.start snk.stop (mainSetup simulationTime).simulatorStop) ∧
      (∀ src ∈ (mainSetup simulationTime).sources,
        src.start ≤ src.stop ∧ src.stop < (mainSetup simulationTime).simulatorStop ∧
          ¬ runningAt src.start src.stop (mainSetup simulationTime).simulatorStop) := by
  refine ⟨rfl, rfl, ?_, ?_, ?_, rfl, ?_, ?_⟩
  · simp [mainSetup]
  · simp [mainSetup]
  · simp [mainSetup]
  · have h1 : (0 : ℚ) ≤ simulationTime.seconds + 1 / 10 := by linarith
    have h2 : simulationTime.seconds + 1 / 10 < simulationTime.seconds + 5 := by linarith
    have h3 : simulationTime.seconds + 1 / 10 ≤ simulationTime.seconds + 5 := h2.le
    simp only [mainSetup, List.mem_cons, List.mem_singleton, List.not_mem_nil, or_false,
      forall_eq_or_imp, forall_eq, runningAt_iff]
    exact ⟨⟨h1, h2, fun hr => hr.2 ⟨h1, h3⟩⟩, ⟨h1, h2, fun hr => hr.2 ⟨h1, h3⟩⟩⟩
  · have h1 : (1 : ℚ) ≤ simulationTime.seconds + 1 / 10 := by linarith
    have h2 : simulationTime.seconds + 1 / 10 < simulationTime.seconds + 5 := by linarith
    have h3 : simulationTime.seconds + 1 / 10 ≤ simulationTime.seconds + 5 := h2.le
    simp only [mainSetup, List.mem_cons, List.mem_singleton, List.not_mem_nil, or_false,
      forall_eq_or_imp, forall_eq, runningAt_iff]
    exact ⟨⟨h1, h2, fun hr => hr.2 ⟨h1, h3⟩⟩, ⟨h1, h2, fun hr => hr.2 ⟨h1, h3⟩⟩⟩

/-- C10 at the value the program uses, simulationTime = 10: the applications
stop at 10.1 and the simulator at 15. -/
theorem schedule_is_ordered_witness :
    (9 / 10 : ℚ) ≤ 10 ∧ main.simulatorStop = 15 ∧
      (∀ src ∈ main.sources,
        src.start ≤ src.stop ∧ src.stop < main.simulatorStop ∧
          ¬ runningAt src.start src.stop main.simulatorStop) := by
  have h := schedule_is_ordered ⟨10, by norm_num⟩ (by norm_num)
  refine ⟨by norm_num, ?_, h.2.2.2.2.2.2.2⟩
  have h5 := h.2.2.2.2.2.1
  show (mainSetup ⟨10, by norm_num⟩).simulatorStop = 15
  rw [h5]; norm_num

/-- C10 fails as stated: at the non-negative simulationTime 0.5 both sources
start at second 1 but stop at second 0.6, before they start, and are running
when the simulator stops at second 5.5. -/
theorem schedule_not_ordered_at_half_second :
    (0 : ℚ) ≤ halfSecond.seconds ∧
      (mainSetup halfSecond).sources.map (fun src => (src.start, src.stop)) =
        [(1, 3 / 5), (1, 3 / 5)] ∧
      (mainSetup halfSecond).simulatorStop = 11 / 2 ∧
      runningAt 1 (3 / 5) (11 / 2) ∧
      ¬ (∀ src ∈ (mainSetup halfSecond).sources,
        ¬ runningAt src.start src.stop (mainSetup halfSecond).simulatorStop) := by
  have hr : runningAt 1 (3 / 5) (11 / 2) := by
    rw [runningAt_iff]
    norm_num
  refine ⟨by simp [halfSecond], ?_, ?_, hr, ?_⟩
  · simp [mainSetup, halfSecond]; norm_num
  · simp [mainSetup, halfSecond]; norm_num
  · intro hall
    have hsrc := hall
      { factory := .TcpSocketFactory, onTime := 1, offTime := 0, packetSize := 1448,
        dataRate := 50000000, remoteAddress := Ipv4Address.ofOctets 10 1 2 2, remotePort := 7,
        tos := 0xb8, node := 0, start := 1, stop := halfSecond.seconds + 1 / 10 }
      (by simp [mainSetup]; decide)
    apply hsrc
    simp only [mainSetup, halfSecond]
    rw [runningAt_iff]
    norm_num

end TrafficControlExample
